import Mathlib

/-!
Verification of the layer compositing and input routing core of toy-ui.

The development is a shallow embedding of two source files:
* src/layer/mod.rs — layer options, the Layer trait, the RawLayer and UiLayer
  variants, and the LayerManager with its render sequencing and input routing;
* src/interaction/events.rs — interaction events and the per-element EventHandlers
  dispatch.

Modelling conventions: external collaborator types (MetalRenderer, CommandBufferRef,
MetalDrawableRef, TextSystem, UiContext, the draw list, and the captured state of
boxed closures) are opaque type parameters. Scalars that the code only constructs
and forwards (f32 coordinates, f64 color channels — no arithmetic touches them in
the verified paths) are modelled as rationals. Stateful loops are modelled both by
the value they return and by the trace of callbacks they invoke, so that visit
order and call counts are provable.
-/

namespace ToyUi

/-- Model of glam Vec2 as used by the layer code: a pair of scalar coordinates that
are only constructed and passed through. -/
structure Vec2 where
  x : ℚ
  y : ℚ
  deriving DecidableEq

/-- Model of metal MTLClearColor: four color channels. -/
structure MTLClearColor where
  red : ℚ
  green : ℚ
  blue : ℚ
  alpha : ℚ
  deriving DecidableEq

/-- Model of metal MTLLoadAction: the two actions the layer code selects between. -/
inductive MTLLoadAction where
  | clear
  | load
  deriving DecidableEq

/-- Blend modes for layer compositing (src/layer/mod.rs, enum BlendMode). -/
inductive BlendMode where
  | alpha
  | additive
  | multiply
  | replace
  deriving DecidableEq

/-- Options for configuring a layer (src/layer/mod.rs, struct LayerOptions). -/
structure LayerOptions where
  receives_input : Bool
  blend_mode : BlendMode
  clear : Bool
  clear_color : MTLClearColor
  deriving DecidableEq

/-- Default for LayerOptions (src/layer/mod.rs, impl Default for LayerOptions):
no input, alpha blending, no clear, black clear color. -/
def LayerOptions.default : LayerOptions :=
  { receives_input := false
    blend_mode := BlendMode.alpha
    clear := false
    clear_color := ⟨0, 0, 0, 1⟩ }

/-- Mouse buttons (src/layer/mod.rs, enum MouseButton). -/
inductive MouseButton where
  | left
  | right
  | middle
  deriving DecidableEq

/-- Key codes (src/layer/mod.rs, enum Key; a placeholder enumeration in the source). -/
inductive Key where
  | A
  | B
  | C
  deriving DecidableEq

/-- Raw input events (src/layer/mod.rs, enum InputEvent). -/
inductive InputEvent where
  | mouseMove (position : Vec2)
  | mouseDown (position : Vec2) (button : MouseButton)
  | mouseUp (position : Vec2) (button : MouseButton)
  | keyDown (key : Key)
  | keyUp (key : Key)
  deriving DecidableEq

/-- Default body of Layer::handle_input in the Layer trait (src/layer/mod.rs,
lines 96-98): every event is reported as not handled. -/
def Layer.handle_input_default (_event : InputEvent) : Bool :=
  false

/-- Result of calling an operation that may panic: either a panic with its message,
or a normal return. The todo invocations in the source are modelled as panics. -/
inductive PanicResult (α : Type) where
  | panicked (msg : String)
  | returned (value : α)
  deriving DecidableEq

variable {R C D T U DL E : Type}

/-- Context provided to raw layer render functions (src/layer/mod.rs, struct
RawLayerContext): the renderer, the command buffer and the viewport size. The
renderer and command buffer types are opaque parameters. -/
structure RawLayerContext (R C : Type) where
  renderer : R
  command_buffer : C
  size : Vec2

/-- RawLayerContext::draw_fullscreen_quad (src/layer/mod.rs, lines 133-136): the body
is a todo invocation, so every call panics with its message. -/
def RawLayerContext.draw_fullscreen_quad (_self : RawLayerContext R C) (_shader : Unit) :
    PanicResult Unit :=
  PanicResult.panicked "not yet implemented: Custom shader support not yet implemented"

/-- RawLayerContext::set_camera (src/layer/mod.rs, lines 139-142): the body is a todo
invocation, so every call panics with its message. -/
def RawLayerContext.set_camera (_self : RawLayerContext R C) (_camera : Unit) :
    PanicResult Unit :=
  PanicResult.panicked "not yet implemented: Camera system not yet implemented"

/-- RawLayerContext::draw_mesh (src/layer/mod.rs, lines 145-148): the body is a todo
invocation, so every call panics with its message. -/
def RawLayerContext.draw_mesh (_self : RawLayerContext R C) (_mesh : Unit)
    (_transform : Unit) : PanicResult Unit :=
  PanicResult.panicked "not yet implemented: Mesh rendering not yet implemented"

/-- A raw layer with direct shader access (src/layer/mod.rs, struct RawLayer).
The captured render closure is modelled as a function from the context to an
opaque effect type E. -/
structure RawLayer (R C E : Type) where
  z_index : Int
  options : LayerOptions
  render_fn : RawLayerContext R C → E

/-- RawLayer::new (src/layer/mod.rs, lines 115-121). -/
def RawLayer.new (z_index : Int) (options : LayerOptions)
    (render_fn : RawLayerContext R C → E) : RawLayer R C E :=
  { z_index := z_index, options := options, render_fn := render_fn }

/-- Layer::render for RawLayer (src/layer/mod.rs, lines 163-178): build a
RawLayerContext from the renderer, the command buffer and the size, and invoke the
stored render function. The drawable, the text system and the is_first_layer flag
are received but unused, exactly as the underscored parameters in the source. -/
def RawLayer.render (l : RawLayer R C E) (renderer : R) (command_buffer : C)
    (_drawable : D) (size : Vec2) (_text_system : T) (_is_first_layer : Bool) : E :=
  l.render_fn { renderer := renderer, command_buffer := command_buffer, size := size }

/-- Layer::handle_input for RawLayer: the impl block for RawLayer does not override
the trait method, so the default body applies. -/
def RawLayer.handle_input (_l : RawLayer R C E) (event : InputEvent) : Bool :=
  Layer.handle_input_default event

/-- A UI layer using the immediate mode API (src/layer/mod.rs, struct UiLayer).
The build closure mutates a UiContext, modelled as a function on the opaque
context type U. -/
structure UiLayer (U : Type) where
  z_index : Int
  options : LayerOptions
  render_fn : U → U

/-- UiLayer::new (src/layer/mod.rs, lines 196-202). -/
def UiLayer.new (z_index : Int) (options : LayerOptions) (render_fn : U → U) :
    UiLayer U :=
  { z_index := z_index, options := options, render_fn := render_fn }

/-- The single call to MetalRenderer::render_draw_list issued by UiLayer::render,
with every argument the source passes (src/layer/mod.rs, lines 244-252). -/
structure RenderDrawListCall (DL R C D T : Type) where
  draw_list : DL
  renderer : R
  command_buffer : C
  drawable : D
  size : ℚ × ℚ
  text_system : T
  load_action : MTLLoadAction
  clear_color : MTLClearColor

/-- Layer::render for UiLayer (src/layer/mod.rs, lines 217-253): create a fresh
UiContext for the size, run the build function, take the draw list, choose the load
action and clear color from the clear option and the is_first_layer flag, and call
render_draw_list. The external UiContext constructor and draw list accessor are
passed in as opaque functions. -/
def UiLayer.render (uiContextNew : Vec2 → U) (uiDrawList : U → DL) (l : UiLayer U)
    (renderer : R) (command_buffer : C) (drawable : D) (size : Vec2)
    (text_system : T) (is_first_layer : Bool) : RenderDrawListCall DL R C D T :=
  let ui_context := uiContextNew size
  let ui_context := l.render_fn ui_context
  let draw_list := uiDrawList ui_context
  let decision :=
    if l.options.clear || is_first_layer then
      (MTLLoadAction.clear, l.options.clear_color)
    else
      (MTLLoadAction.load, MTLClearColor.mk 0 0 0 0)
  { draw_list := draw_list
    renderer := renderer
    command_buffer := command_buffer
    drawable := drawable
    size := (size.x, size.y)
    text_system := text_system
    load_action := decision.1
    clear_color := decision.2 }

/-- Layer::handle_input for UiLayer: the impl block for UiLayer does not override
the trait method, so the default body applies. -/
def UiLayer.handle_input (_l : UiLayer U) (event : InputEvent) : Bool :=
  Layer.handle_input_default event

/-- View of one boxed dyn Layer as the LayerManager consumes it: the z-index, the
options and the handle_input behavior, together with a tag modelling the identity
of the box (used only for instrumentation; the manager never reads it). -/
structure DynLayer where
  tag : Nat
  z_index : Int
  options : LayerOptions
  handle_input : InputEvent → Bool

/-- Erasure of a RawLayer to the trait-object view stored by the manager. -/
def RawLayer.toDyn (tag : Nat) (l : RawLayer R C E) : DynLayer :=
  { tag := tag
    z_index := l.z_index
    options := l.options
    handle_input := fun e => RawLayer.handle_input l e }

/-- Erasure of a UiLayer to the trait-object view stored by the manager. -/
def UiLayer.toDyn (tag : Nat) (l : UiLayer U) : DynLayer :=
  { tag := tag
    z_index := l.z_index
    options := l.options
    handle_input := fun e => UiLayer.handle_input l e }

/-- Manages all layers and handles rendering order (src/layer/mod.rs, struct
LayerManager): an ordered sequence of boxed layers. -/
structure LayerManager where
  layers : List DynLayer

/-- LayerManager::new (src/layer/mod.rs, lines 266-268). -/
def LayerManager.new : LayerManager :=
  { layers := [] }

/-- Boolean comparison used by the sort in add_layer: Vec::sort_by_key with the
z_index key orders by ascending z-index. -/
def layerLE (a b : DynLayer) : Bool :=
  decide (a.z_index ≤ b.z_index)

/-- LayerManager::add_layer (src/layer/mod.rs, lines 289-293): push the layer, then
re-sort the whole sequence by ascending z-index. Vec::sort_by_key is a stable sort;
it is modelled by mergeSort, which is stable for the same comparison, so the
resulting sequence is identical. -/
def LayerManager.add_layer (m : LayerManager) (layer : DynLayer) : LayerManager :=
  { layers := (m.layers ++ [layer]).mergeSort layerLE }

/-- LayerManager::add_raw_layer (src/layer/mod.rs, lines 271-277): construct a
RawLayer and add it. The tag models the identity of the new box. -/
def LayerManager.add_raw_layer (m : LayerManager) (tag : Nat) (z_index : Int)
    (options : LayerOptions) (render_fn : RawLayerContext R C → E) : LayerManager :=
  m.add_layer (RawLayer.toDyn tag (RawLayer.new z_index options render_fn))

/-- LayerManager::add_ui_layer (src/layer/mod.rs, lines 280-286): construct a
UiLayer and add it. The tag models the identity of the new box. -/
def LayerManager.add_ui_layer (m : LayerManager) (tag : Nat) (z_index : Int)
    (options : LayerOptions) (render_fn : U → U) : LayerManager :=
  m.add_layer (UiLayer.toDyn tag (UiLayer.new z_index options render_fn))

/-- LayerManager::clear (src/layer/mod.rs, lines 296-298): remove every layer. -/
def LayerManager.clear (_m : LayerManager) : LayerManager :=
  { layers := [] }

/-- Folding a whole sequence of add_layer calls from a fresh manager, covering every
manager reachable through the public insertion API. -/
def LayerManager.addAll (specs : List DynLayer) : LayerManager :=
  specs.foldl LayerManager.add_layer LayerManager.new

/-- Trace of LayerManager::render (src/layer/mod.rs, lines 301-321): the loop
enumerates the stored sequence in order and calls Layer::render on each layer with
is_first_layer true exactly when the enumeration index is 0. Each list entry is one
render invocation: the layer and the is_first_layer argument it was passed. -/
def LayerManager.renderCalls (m : LayerManager) : List (DynLayer × Bool) :=
  m.layers.enum.map fun p => (p.2, p.1 == 0)

/-- Return value of the loop in LayerManager::handle_input (src/layer/mod.rs, lines
326-331) on an already reversed sequence: for each layer test receives_input and
then handle_input (short-circuit conjunction as in the source), returning true at
the first layer that consumes. -/
def handleInputLoop (e : InputEvent) : List DynLayer → Bool
  | [] => false
  | l :: rest =>
    if l.options.receives_input && l.handle_input e then true
    else handleInputLoop e rest

/-- LayerManager::handle_input (src/layer/mod.rs, lines 324-332): iterate the stored
sequence in reverse order (topmost layers first). -/
def LayerManager.handle_input (m : LayerManager) (e : InputEvent) : Bool :=
  handleInputLoop e m.layers.reverse

/-- Call instrumentation for the same loop: the list of layers on which
Layer::handle_input is actually invoked, in visit order. The short-circuit
conjunction in the source invokes handle_input only when receives_input is true,
and the early return stops the loop at the first consumer. -/
def handleInputCalls (e : InputEvent) : List DynLayer → List DynLayer
  | [] => []
  | l :: rest =>
    if l.options.receives_input then
      if l.handle_input e then [l]
      else l :: handleInputCalls e rest
    else handleInputCalls e rest

/-- Layers whose handle_input is invoked by LayerManager::handle_input, in visit
order. -/
def LayerManager.handleInputVisits (m : LayerManager) (e : InputEvent) :
    List DynLayer :=
  handleInputCalls e m.layers.reverse

/-- Spec-side description of the routing visit sequence, written from the words of
the claim: given the eligible layers in visit order, every layer up to and
including the first consumer is visited and nothing after it. -/
def specVisitSeq (e : InputEvent) : List DynLayer → List DynLayer
  | [] => []
  | l :: rest => if l.handle_input e then [l] else l :: specVisitSeq e rest

/-- Modelled from the spec: ElementId is declared in the interaction module, which is
not among the provided sources; the spec describes it as an opaque element identity,
so it is a wrapped number here. -/
structure ElementId where
  id : Nat
  deriving DecidableEq

/-- Events generated by the interaction system (src/interaction/events.rs, enum
InteractionEvent). -/
inductive InteractionEvent where
  | mouseEnter (element_id : ElementId)
  | mouseLeave (element_id : ElementId)
  | mouseMove (element_id : ElementId) (position : Vec2) (local_position : Vec2)
  | mouseDown (element_id : ElementId) (button : MouseButton) (position : Vec2)
      (local_position : Vec2)
  | mouseUp (element_id : ElementId) (button : MouseButton) (position : Vec2)
      (local_position : Vec2)
  | click (element_id : ElementId) (button : MouseButton) (position : Vec2)
      (local_position : Vec2)
  deriving DecidableEq

/-- Current interaction state of an element (src/interaction/events.rs, struct
InteractionState). -/
structure InteractionState where
  is_hovered : Bool
  is_pressed : Bool
  deriving DecidableEq

/-- InteractionState::new (src/interaction/events.rs, lines 58-62): both flags start
false, per the derived Default. -/
def InteractionState.new : InteractionState :=
  { is_hovered := false, is_pressed := false }

/-- Event handler closures for interactive elements (src/interaction/events.rs,
struct EventHandlers). The boxed closures are opaque: H0 models FnMut(),
H2 models FnMut(Vec2, Vec2), H3 models FnMut(MouseButton, Vec2, Vec2). -/
structure EventHandlers (H0 H2 H3 : Type) where
  on_mouse_enter : Option H0
  on_mouse_leave : Option H0
  on_mouse_move : Option H2
  on_mouse_down : Option H3
  on_mouse_up : Option H3
  on_click : Option H3

variable {H0 H2 H3 : Type}

/-- EventHandlers::new (src/interaction/events.rs, lines 96-105): every callback
absent. -/
def EventHandlers.new : EventHandlers H0 H2 H3 :=
  { on_mouse_enter := none
    on_mouse_leave := none
    on_mouse_move := none
    on_mouse_down := none
    on_mouse_up := none
    on_click := none }

/-- One callback invocation performed by EventHandlers::handle_event: which opaque
closure ran and with which arguments. -/
inductive HandlerInvocation (H0 H2 H3 : Type) where
  | unitCall (handler : H0)
  | moveCall (handler : H2) (position : Vec2) (local_position : Vec2)
  | buttonCall (handler : H3) (button : MouseButton) (position : Vec2)
      (local_position : Vec2)

/-- EventHandlers::handle_event (src/interaction/events.rs, lines 162-214), as the
trace of callback invocations it performs: match on the event kind, and when the
corresponding optional callback is present invoke it with the fields of the event;
when it is absent do nothing. -/
def EventHandlers.handle_event (h : EventHandlers H0 H2 H3)
    (event : InteractionEvent) : List (HandlerInvocation H0 H2 H3) :=
  match event with
  | InteractionEvent.mouseEnter _ =>
    match h.on_mouse_enter with
    | some handler => [HandlerInvocation.unitCall handler]
    | none => []
  | InteractionEvent.mouseLeave _ =>
    match h.on_mouse_leave with
    | some handler => [HandlerInvocation.unitCall handler]
    | none => []
  | InteractionEvent.mouseMove _ position local_position =>
    match h.on_mouse_move with
    | some handler => [HandlerInvocation.moveCall handler position local_position]
    | none => []
  | InteractionEvent.mouseDown _ button position local_position =>
    match h.on_mouse_down with
    | some handler =>
      [HandlerInvocation.buttonCall handler button position local_position]
    | none => []
  | InteractionEvent.mouseUp _ button position local_position =>
    match h.on_mouse_up with
    | some handler =>
      [HandlerInvocation.buttonCall handler button position local_position]
    | none => []
  | InteractionEvent.click _ button position local_position =>
    match h.on_click with
    | some handler =>
      [HandlerInvocation.buttonCall handler button position local_position]
    | none => []

/-- Spec-side description of dispatch, written from the words of the claim: the
optional callback registered for the kind of the event, applied to the fields of
the event, or nothing when it is absent. -/
def specExpectedInvocation (h : EventHandlers H0 H2 H3) (event : InteractionEvent) :
    Option (HandlerInvocation H0 H2 H3) :=
  match event with
  | InteractionEvent.mouseEnter _ =>
    h.on_mouse_enter.map fun f => HandlerInvocation.unitCall f
  | InteractionEvent.mouseLeave _ =>
    h.on_mouse_leave.map fun f => HandlerInvocation.unitCall f
  | InteractionEvent.mouseMove _ p lp =>
    h.on_mouse_move.map fun f => HandlerInvocation.moveCall f p lp
  | InteractionEvent.mouseDown _ b p lp =>
    h.on_mouse_down.map fun f => HandlerInvocation.buttonCall f b p lp
  | InteractionEvent.mouseUp _ b p lp =>
    h.on_mouse_up.map fun f => HandlerInvocation.buttonCall f b p lp
  | InteractionEvent.click _ b p lp =>
    h.on_click.map fun f => HandlerInvocation.buttonCall f b p lp

/-! Helper lemmas about the routing loop. -/

theorem handleInputCalls_eq_spec (e : InputEvent) (ls : List DynLayer) :
    handleInputCalls e ls
      = specVisitSeq e (ls.filter fun l => l.options.receives_input) := by
  induction ls with
  | nil => rfl
  | cons l rest ih =>
    cases hr : l.options.receives_input with
    | false => simp [handleInputCalls, hr, List.filter_cons, ih]
    | true =>
      cases hh : l.handle_input e with
      | true => simp [handleInputCalls, specVisitSeq, hr, hh, List.filter_cons]
      | false => simp [handleInputCalls, specVisitSeq, hr, hh, List.filter_cons, ih]

theorem handleInputLoop_eq_any (e : InputEvent) (ls : List DynLayer) :
    handleInputLoop e ls
      = (ls.filter fun l => l.options.receives_input).any fun l => l.handle_input e := by
  induction ls with
  | nil => rfl
  | cons l rest ih =>
    cases hr : l.options.receives_input with
    | false => simp [handleInputLoop, hr, List.filter_cons, ih]
    | true =>
      cases hh : l.handle_input e with
      | true => simp [handleInputLoop, hr, hh, List.filter_cons]
      | false => simp [handleInputLoop, hr, hh, List.filter_cons, ih]

theorem handleInputCalls_consume_shape (e : InputEvent) (ls : List DynLayer) :
    ∃ k, (handleInputCalls e ls).map (fun l => l.handle_input e)
      = List.replicate k false ++ (if handleInputLoop e ls then [true] else []) := by
  induction ls with
  | nil => exact ⟨0, rfl⟩
  | cons l rest ih =>
    obtain ⟨k, hk⟩ := ih
    cases hr : l.options.receives_input with
    | false =>
      exact ⟨k, by simp [handleInputCalls, handleInputLoop, hr, hk]⟩
    | true =>
      cases hh : l.handle_input e with
      | true =>
        exact ⟨0, by simp [handleInputCalls, handleInputLoop, hr, hh]⟩
      | false =>
        refine ⟨k + 1, ?_⟩
        simp [handleInputCalls, handleInputLoop, hr, hh, hk, List.replicate_succ]

/-! Helper lemmas about the sorted layer sequence. -/

theorem layerLE_trans : ∀ a b c : DynLayer, layerLE a b → layerLE b c → layerLE a c := by
  intro a b c hab hbc
  simp only [layerLE, decide_eq_true_eq] at hab hbc ⊢
  omega

theorem layerLE_total : ∀ a b : DynLayer, layerLE a b || layerLE b a := by
  intro a b
  simp only [layerLE, Bool.or_eq_true, decide_eq_true_eq]
  omega

theorem add_layer_sorted (m : LayerManager) (layer : DynLayer) :
    List.Pairwise (fun a b => a.z_index ≤ b.z_index) (m.add_layer layer).layers := by
  have h := List.sorted_mergeSort layerLE_trans layerLE_total (m.layers ++ [layer])
  exact h.imp fun hab => by simpa [layerLE] using hab

theorem foldl_add_layer_sorted (specs : List DynLayer) :
    ∀ m : LayerManager,
      List.Pairwise (fun a b => a.z_index ≤ b.z_index) m.layers →
      List.Pairwise (fun a b => a.z_index ≤ b.z_index)
        ((specs.foldl LayerManager.add_layer m).layers) := by
  induction specs with
  | nil =>
    intro m hm
    simpa using hm
  | cons l rest ih =>
    intro m _
    rw [List.foldl_cons]
    exact ih (m.add_layer l) (add_layer_sorted m l)

theorem addAll_sorted (specs : List DynLayer) :
    List.Pairwise (fun a b => a.z_index ≤ b.z_index)
      (LayerManager.addAll specs).layers :=
  foldl_add_layer_sorted specs LayerManager.new List.Pairwise.nil

/-! Helper lemmas for stability: restricted to any one z-index class, the sort in
add_layer preserves the order of the input, so insertion order among equal keys is
kept. -/

def zFilter (z : Int) (ls : List DynLayer) : List DynLayer :=
  ls.filter fun l => l.z_index == z

theorem zFilter_mergeSort (z : Int) (ls : List DynLayer) :
    zFilter z (ls.mergeSort layerLE) = zFilter z ls := by
  have hall : ∀ a ∈ zFilter z ls, a.z_index = z := by
    intro a ha
    have := List.of_mem_filter ha
    simpa using this
  have hpw : (zFilter z ls).Pairwise fun a b => layerLE a b := by
    apply List.pairwise_of_forall_mem_list
    intro a ha b hb
    simp [layerLE, hall a ha, hall b hb]
  have hsub : List.Sublist (zFilter z ls) (ls.mergeSort layerLE) :=
    List.sublist_mergeSort layerLE_trans layerLE_total hpw (List.filter_sublist ls)
  have hself : (zFilter z ls).filter (fun l => l.z_index == z) = zFilter z ls := by
    apply List.filter_eq_self.mpr
    intro a ha
    simp [hall a ha]
  have hsub2 : List.Sublist (zFilter z ls) (zFilter z (ls.mergeSort layerLE)) := by
    have := hsub.filter fun l => l.z_index == z
    rwa [hself] at this
  have hperm : List.Perm (zFilter z (ls.mergeSort layerLE)) (zFilter z ls) :=
    (List.mergeSort_perm ls layerLE).filter _
  exact (hsub2.eq_of_length hperm.length_eq.symm).symm

theorem add_layer_zFilter (m : LayerManager) (layer : DynLayer) (z : Int) :
    zFilter z (m.add_layer layer).layers
      = zFilter z m.layers ++ zFilter z [layer] := by
  show zFilter z ((m.layers ++ [layer]).mergeSort layerLE) = _
  rw [zFilter_mergeSort]
  simp [zFilter, List.filter_append]

theorem foldl_add_layer_zFilter (z : Int) (specs : List DynLayer) :
    ∀ m : LayerManager,
      zFilter z (specs.foldl LayerManager.add_layer m).layers
        = zFilter z m.layers ++ zFilter z specs := by
  induction specs with
  | nil =>
    intro m
    simp [zFilter]
  | cons l rest ih =>
    intro m
    rw [List.foldl_cons, ih, add_layer_zFilter]
    cases h : l.z_index == z <;>
      simp [zFilter, List.filter_cons, h, List.append_assoc]

/-! Helper lemmas about render sequencing. -/

theorem renderCalls_map_fst (m : LayerManager) :
    (m.renderCalls).map Prod.fst = m.layers := by
  simp only [LayerManager.renderCalls, List.map_map]
  have : (Prod.fst ∘ fun p : Nat × DynLayer => (p.2, p.1 == 0))
      = fun p : Nat × DynLayer => p.2 := rfl
  rw [this]
  exact List.enum_map_snd m.layers

theorem enumFrom_map_isFirst (ls : List DynLayer) :
    ∀ n : Nat, n ≠ 0 →
      (List.enumFrom n ls).map (fun p => p.1 == 0)
        = List.replicate ls.length false := by
  induction ls with
  | nil => intro n _; rfl
  | cons l rest ih =>
    intro n hn
    have hb : (n == 0) = false := by
      simpa using hn
    simp [List.enumFrom_cons, List.replicate_succ, hb,
      ih (n + 1) (Nat.succ_ne_zero n)]

/-! Concrete fixtures used by witnesses and counterexamples. -/

/-- Layer options with input reception enabled, as produced by with_input on the
default options. -/
def optsWithInput : LayerOptions :=
  { LayerOptions.default with receives_input := true }

/-- A concrete input-receptive layer that declines every event. -/
def decliningLayer (tag : Nat) (z : Int) : DynLayer :=
  { tag := tag
    z_index := z
    options := optsWithInput
    handle_input := fun _ => false }

/-- A concrete manager holding two input-receptive declining layers. -/
def twoDecliningManager : LayerManager :=
  { layers := [decliningLayer 0 0, decliningLayer 1 1] }

/-! Claim theorems. -/

/-- Claim C1: for every input event and every layer sequence, handle_input visits
layers in reverse of the stored (ascending z-index) sequence — which is descending
z-index for every manager built through the insertion API — skips every layer whose
receives_input option is false, returns true exactly when some eligible layer
consumes the event, and never invokes handle_input on any layer past the first
consumer: the invocation trace equals the spec visit sequence over the reversed,
input-filtered layer list. -/
theorem c1_handle_input_routing (m : LayerManager) (e : InputEvent)
    (specs : List DynLayer) :
    m.handleInputVisits e
        = specVisitSeq e (m.layers.reverse.filter fun l => l.options.receives_input)
    ∧ m.handle_input e
        = ((m.layers.reverse.filter fun l => l.options.receives_input).any
            fun l => l.handle_input e)
    ∧ List.Pairwise (fun a b => b.z_index ≤ a.z_index)
        (LayerManager.addAll specs).layers.reverse := by
  refine ⟨handleInputCalls_eq_spec e m.layers.reverse,
    handleInputLoop_eq_any e m.layers.reverse, ?_⟩
  rw [List.pairwise_reverse]
  exact addAll_sorted specs

/-- Claim C2 counterexample: with two input-receptive layers that both decline an
event, the manager invokes handle_input on both of them for that single event, so
the claim that at most one layer ever receives a given event fails on the code. -/
theorem c2_counterexample :
    ¬ (twoDecliningManager.handleInputVisits (InputEvent.keyDown Key.A)).length ≤ 1 := by
  decide

/-- Claim C2 amended: at most one layer consumes a given input event — every layer
invoked before the consumer returned false, the consumer (when the event is
consumed) is the last layer invoked, and no layer is invoked after it; when no
eligible layer consumes, every invoked layer returned false. Multiple eligible
layers may each receive the event when earlier ones decline it. -/
theorem c2_amended_single_consumer (m : LayerManager) (e : InputEvent) :
    ∃ k, (m.handleInputVisits e).map (fun l => l.handle_input e)
      = List.replicate k false ++ (if m.handle_input e then [true] else []) :=
  handleInputCalls_consume_shape e m.layers.reverse

/-- Claim C3: after any add_layer call the layer sequence is sorted by ascending
z-index; render visits exactly the stored sequence in order; and for any sequence
of adds starting from a fresh manager, the layers of any one z-index class appear
in their insertion order (the sort is stable), for every z-index. -/
theorem c3_sorted_stable_insertion (m : LayerManager) (layer : DynLayer)
    (specs : List DynLayer) (z : Int) :
    List.Pairwise (fun a b => a.z_index ≤ b.z_index) (m.add_layer layer).layers
    ∧ (LayerManager.addAll specs).renderCalls.map Prod.fst
        = (LayerManager.addAll specs).layers
    ∧ (LayerManager.addAll specs).layers.filter (fun l => l.z_index == z)
        = specs.filter fun l => l.z_index == z := by
  refine ⟨add_layer_sorted m layer, renderCalls_map_fst _, ?_⟩
  have h := foldl_add_layer_zFilter z specs LayerManager.new
  simpa [zFilter, LayerManager.addAll, LayerManager.new] using h

/-- Claim C4: for every non-empty layer sequence, during one render call the
is_first_layer argument is true exactly for the single layer at sorted position 0:
the flags passed are true followed by false for every other layer. -/
theorem c4_is_first_layer (m : LayerManager) (h : m.layers ≠ []) :
    (m.renderCalls).map Prod.snd
      = true :: List.replicate (m.layers.length - 1) false := by
  obtain ⟨l, rest, hl⟩ := List.exists_cons_of_ne_nil h
  have h1 := enumFrom_map_isFirst rest 1 one_ne_zero
  simp [LayerManager.renderCalls, hl, List.enum_cons, List.map_map,
    Function.comp_def, h1]

/-- Claim C4 witness: a concrete two-layer manager is non-empty and its render pass
receives the flags true then false. -/
theorem c4_witness :
    twoDecliningManager.layers ≠ []
    ∧ (twoDecliningManager.renderCalls).map Prod.snd
        = true :: List.replicate (twoDecliningManager.layers.length - 1) false
    ∧ (twoDecliningManager.renderCalls).map Prod.snd = [true, false] :=
  ⟨List.cons_ne_nil _ _,
    c4_is_first_layer twoDecliningManager (List.cons_ne_nil _ _), rfl⟩

/-- Claim C5: every UiLayer render selects the hardware clear action together with
the configured clear color of the layer exactly when is_first_layer or the clear
option of the layer holds, and otherwise selects the load (preserve) action with
the fully transparent color. -/
theorem c5_ui_clear_policy (uiContextNew : Vec2 → U) (uiDrawList : U → DL)
    (l : UiLayer U) (renderer : R) (command_buffer : C) (drawable : D)
    (size : Vec2) (text_system : T) (is_first_layer : Bool) :
    ((UiLayer.render uiContextNew uiDrawList l renderer command_buffer drawable
          size text_system is_first_layer).load_action = MTLLoadAction.clear
        ∧ (UiLayer.render uiContextNew uiDrawList l renderer command_buffer drawable
            size text_system is_first_layer).clear_color = l.options.clear_color
      ↔ (is_first_layer || l.options.clear) = true)
    ∧ ((UiLayer.render uiContextNew uiDrawList l renderer command_buffer drawable
          size text_system is_first_layer).load_action = MTLLoadAction.load
        ∧ (UiLayer.render uiContextNew uiDrawList l renderer command_buffer drawable
            size text_system is_first_layer).clear_color = MTLClearColor.mk 0 0 0 0
      ↔ (is_first_layer || l.options.clear) = false) := by
  cases hf : is_first_layer <;> cases hc : l.options.clear <;>
    simp [UiLayer.render, hf, hc]

/-- Claim C6: clear empties the manager, and a freshly constructed manager is empty;
rendering an empty manager performs no layer render invocation, and handle_input on
an empty manager performs no handle_input invocation and returns false. All the
operations are total functions of the model, so no panic is possible. -/
theorem c6_clear_then_noop (m : LayerManager) (e : InputEvent) :
    (m.clear).layers = []
    ∧ (m.clear).renderCalls = []
    ∧ (m.clear).handleInputVisits e = []
    ∧ (m.clear).handle_input e = false
    ∧ LayerManager.new.layers = []
    ∧ LayerManager.new.renderCalls = []
    ∧ LayerManager.new.handleInputVisits e = []
    ∧ LayerManager.new.handle_input e = false :=
  ⟨rfl, rfl, rfl, rfl, rfl, rfl, rfl, rfl⟩

/-- Claim C7: each unimplemented placeholder operation of RawLayerContext panics
deterministically with its own message whenever invoked, for every context and
every argument, rather than silently returning. -/
theorem c7_placeholders_always_panic (ctx : RawLayerContext R C)
    (shader camera mesh transform : Unit) :
    ctx.draw_fullscreen_quad shader
        = PanicResult.panicked
            "not yet implemented: Custom shader support not yet implemented"
    ∧ ctx.set_camera camera
        = PanicResult.panicked
            "not yet implemented: Camera system not yet implemented"
    ∧ ctx.draw_mesh mesh transform
        = PanicResult.panicked
            "not yet implemented: Mesh rendering not yet implemented" :=
  ⟨rfl, rfl, rfl⟩

/-- Claim C8: for every InteractionEvent, handle_event performs exactly the optional
callback registered for the kind of the event, passing the button, position and
local position fields of the event where applicable; thus at most one callback runs,
and when the registered callback is absent nothing at all happens. -/
theorem c8_dispatch_at_most_one (h : EventHandlers H0 H2 H3)
    (event : InteractionEvent) :
    EventHandlers.handle_event h event = (specExpectedInvocation h event).toList
    ∧ (EventHandlers.handle_event h event).length ≤ 1 := by
  cases event with
  | mouseEnter eid =>
    cases hh : h.on_mouse_enter <;>
      simp [EventHandlers.handle_event, specExpectedInvocation, hh]
  | mouseLeave eid =>
    cases hh : h.on_mouse_leave <;>
      simp [EventHandlers.handle_event, specExpectedInvocation, hh]
  | mouseMove eid p lp =>
    cases hh : h.on_mouse_move <;>
      simp [EventHandlers.handle_event, specExpectedInvocation, hh]
  | mouseDown eid b p lp =>
    cases hh : h.on_mouse_down <;>
      simp [EventHandlers.handle_event, specExpectedInvocation, hh]
  | mouseUp eid b p lp =>
    cases hh : h.on_mouse_up <;>
      simp [EventHandlers.handle_event, specExpectedInvocation, hh]
  | click eid b p lp =>
    cases hh : h.on_click <;>
      simp [EventHandlers.handle_event, specExpectedInvocation, hh]

/-- Claim C9: a RawLayer never consumes input: its handle_input is the unchanged
trait default and returns false for every event and every raw layer, even an
input-receptive one; consequently a raw layer placed topmost never changes the
routing outcome, and after its (possible) visit routing continues to the remaining
layers. -/
theorem c9_raw_layer_never_consumes (l : RawLayer R C E) (e : InputEvent)
    (tag : Nat) (rest : List DynLayer) :
    RawLayer.handle_input l e = false
    ∧ RawLayer.handle_input l e = Layer.handle_input_default e
    ∧ LayerManager.handle_input ⟨rest ++ [RawLayer.toDyn tag l]⟩ e
        = LayerManager.handle_input ⟨rest⟩ e
    ∧ LayerManager.handleInputVisits ⟨rest ++ [RawLayer.toDyn tag l]⟩ e
        = (if (RawLayer.toDyn tag l).options.receives_input
            then [RawLayer.toDyn tag l] else [])
          ++ LayerManager.handleInputVisits ⟨rest⟩ e := by
  refine ⟨rfl, rfl, ?_, ?_⟩
  · simp only [LayerManager.handle_input, List.reverse_append,
      List.reverse_singleton, List.singleton_append]
    simp [handleInputLoop, RawLayer.toDyn, RawLayer.handle_input,
      Layer.handle_input_default]
  · simp only [LayerManager.handleInputVisits, List.reverse_append,
      List.reverse_singleton, List.singleton_append]
    cases hr : l.options.receives_input <;>
      simp [handleInputCalls, RawLayer.toDyn, RawLayer.handle_input,
        Layer.handle_input_default, hr]

/-- Claim C10: RawLayer render only builds a RawLayerContext from the renderer, the
command buffer and the size and invokes the stored render function; it is invariant
under the is_first_layer flag, the drawable, the text system, and any change to the
layer options — in particular the clear flag and clear color — so it issues no
clear or load decision of its own. -/
theorem c10_raw_render_ignores_clear (l : RawLayer R C E) (renderer : R)
    (command_buffer : C) (drawable drawable2 : D) (size : Vec2)
    (text_system text_system2 : T) (flag flag2 : Bool) (opts2 : LayerOptions) :
    RawLayer.render l renderer command_buffer drawable size text_system flag
        = l.render_fn
            { renderer := renderer, command_buffer := command_buffer, size := size }
    ∧ RawLayer.render l renderer command_buffer drawable size text_system flag
        = RawLayer.render l renderer command_buffer drawable2 size text_system2 flag2
    ∧ RawLayer.render { l with options := opts2 } renderer command_buffer drawable
          size text_system flag
        = RawLayer.render l renderer command_buffer drawable size text_system flag :=
  ⟨rfl, rfl, rfl⟩

end ToyUi
